import Mathlib

/-!
Verification development for the intent-detection and action-execution
pipeline of the assistant platform (app/assistants/actions.py,
app/assistants/commercial.py, app/assistants/personal.py).

The Python source is shallowly embedded:
* Python strings are Lean String values; helper functions reproduce the
  exact semantics of the Python methods used by the source
  (str.lower, str.strip, str.title, str.capitalize, str.split, substring
  membership, str.zfill, f-string formatting of numbers).
* The regular expressions from the source are embedded as an explicit
  syntax tree (RE) and executed by a backtracking matcher that reproduces
  the semantics of Python re.search for the features those patterns use:
  leftmost-earliest match, left-biased alternation, greedy and lazy
  repetition, capture groups, optional groups, the end anchor.
* datetime.now() is threaded explicitly as a parameter now : Nat counting
  days since 1970-01-01 (which was a Thursday, so the Python
  datetime.weekday value of day n is (n + 3) % 7).
* The SQLite stores are modelled as lists; a create call appends a row
  and returns the next id, mirroring an INSERT with AUTOINCREMENT.
-/

namespace SimpleIA

/-! ## Python string primitives -/

/-- Whitespace characters recognised by Python str.strip, str.split and
the regex class for spaces. -/
def pyIsSpace (c : Char) : Bool :=
  c = ' ' || c = '\t' || c = '\n' || c = '\r' || c = '\x0b' || c = '\x0c'

/-- ASCII decimal digits, the characters matched by the digit class in the
patterns of the source. -/
def pyIsDigit (c : Char) : Bool :=
  '0' ≤ c && c ≤ '9'

/-- Lowercasing of a single character as Python str.lower performs it on the
characters that occur in the source patterns and inputs: ASCII letters and
the accented Spanish letters. -/
def pyLowerChar (c : Char) : Char :=
  if 'A' ≤ c && c ≤ 'Z' then Char.ofNat (c.toNat + 32)
  else if c = 'Á' then 'á'
  else if c = 'É' then 'é'
  else if c = 'Í' then 'í'
  else if c = 'Ó' then 'ó'
  else if c = 'Ú' then 'ú'
  else if c = 'Ñ' then 'ñ'
  else if c = 'Ü' then 'ü'
  else c

/-- Uppercasing of a single character, the inverse direction used by
str.title and str.capitalize. -/
def pyUpperChar (c : Char) : Char :=
  if 'a' ≤ c && c ≤ 'z' then Char.ofNat (c.toNat - 32)
  else if c = 'á' then 'Á'
  else if c = 'é' then 'É'
  else if c = 'í' then 'Í'
  else if c = 'ó' then 'Ó'
  else if c = 'ú' then 'Ú'
  else if c = 'ñ' then 'Ñ'
  else if c = 'ü' then 'Ü'
  else c

/-- Cased letters, used by str.title to decide where a word starts. -/
def pyIsAlpha (c : Char) : Bool :=
  ('a' ≤ c && c ≤ 'z') || ('A' ≤ c && c ≤ 'Z') ||
  c = 'á' || c = 'é' || c = 'í' || c = 'ó' || c = 'ú' || c = 'ñ' || c = 'ü' ||
  c = 'Á' || c = 'É' || c = 'Í' || c = 'Ó' || c = 'Ú' || c = 'Ñ' || c = 'Ü'

/-- Python str.lower. -/
def pyLower (s : String) : String :=
  String.mk (s.toList.map pyLowerChar)

/-- Python str.strip with no argument: remove leading and trailing
whitespace. -/
def pyStrip (s : String) : String :=
  String.mk (((s.toList.dropWhile pyIsSpace).reverse.dropWhile pyIsSpace).reverse)

/-- Python str.title as it acts on the extracted product names: a cased
character that follows a non-cased character is uppercased, any other cased
character is lowercased. -/
def pyTitleAux : Bool → List Char → List Char
  | _, [] => []
  | prevCased, c :: rest =>
    if pyIsAlpha c then
      (if prevCased then pyLowerChar c else pyUpperChar c) :: pyTitleAux true rest
    else
      c :: pyTitleAux false rest

def pyTitle (s : String) : String :=
  String.mk (pyTitleAux false s.toList)

/-- Python str.capitalize: first character uppercased, the rest
lowercased. -/
def pyCapitalize (s : String) : String :=
  match s.toList with
  | [] => ""
  | c :: rest => String.mk (pyUpperChar c :: rest.map pyLowerChar)

/-- Python str.split with no argument: split on runs of whitespace,
dropping empty pieces. -/
def pySplitAux : List Char → List Char → List String
  | [], acc => if acc.isEmpty then [] else [String.mk acc.reverse]
  | c :: rest, acc =>
    if pyIsSpace c then
      if acc.isEmpty then pySplitAux rest []
      else String.mk acc.reverse :: pySplitAux rest []
    else pySplitAux rest (c :: acc)

def pySplit (s : String) : List String :=
  pySplitAux s.toList []

/-- Prefix test on character lists. -/
def listIsPrefix : List Char → List Char → Bool
  | [], _ => true
  | _ :: _, [] => false
  | a :: as, b :: bs => a = b && listIsPrefix as bs

/-- Python substring membership (the in operator on strings). The empty
needle is a substring of everything, as in Python. -/
def listContains (needle : List Char) : List Char → Bool
  | [] => listIsPrefix needle []
  | c :: rest => listIsPrefix needle (c :: rest) || listContains needle rest

def pyContains (hay needle : String) : Bool :=
  listContains needle.toList hay.toList

/-- Value of a string of decimal digits. -/
def digitsVal (cs : List Char) : Nat :=
  cs.foldl (fun acc c => 10 * acc + (c.toNat - '0'.toNat)) 0

/-- Python float() applied to the numeric literals captured by the product
patterns (digits with an optional fractional part), as the exact rational
intPart + fracPart / 10 ^ length, written as a single normalised
fraction. -/
def pyFloat (s : String) : Rat :=
  let cs := s.toList
  let intPart := cs.takeWhile (fun c => c ≠ '.')
  let fracPart := (cs.dropWhile (fun c => c ≠ '.')).drop 1
  mkRat (digitsVal intPart * 10 ^ fracPart.length + digitsVal fracPart)
    (10 ^ fracPart.length)

/-- Decimal rendering of a natural number padded with leading zeros, the
effect of the 02d format specifier and of str.zfill. -/
def padNat (width n : Nat) : String :=
  let s := toString n
  String.mk (List.replicate (width - s.length) '0') ++ s

/-- Python str.zfill on an already extracted digit string. -/
def pyZfill (width : Nat) (s : String) : String :=
  String.mk (List.replicate (width - s.length) '0') ++ s

/-- Rendering of an optional string inside an f-string: Python prints the
stored None value as the text None when the key is present with value
None, which is how rows with NULL columns come out of the store. -/
def pyShowOpt : Option String → String
  | none => "None"
  | some s => s

/-- Comma join, the effect of the join call in the clarification
messages. -/
def joinComma : List String → String
  | [] => ""
  | [s] => s
  | s :: rest => s ++ ", " ++ joinComma rest

/-! ## Calendar arithmetic

The source calls datetime.now(), adds timedelta values in days, and formats
with strftime as YYYY-MM-DD. We represent an instant by the number of days
since 1970-01-01 and implement the civil-calendar conversion so that
formatting is exact Gregorian formatting. -/

/-- Conversion from a day count (days since 1970-01-01) to the Gregorian
civil date (year, month, day). -/
def civilFromDays (n : Nat) : Nat × Nat × Nat :=
  let z := n + 719468
  let era := z / 146097
  let doe := z % 146097
  let yoe := (doe - doe / 1460 + doe / 36524 - doe / 146096) / 365
  let y := yoe + era * 400
  let doy := doe - (365 * yoe + yoe / 4 - yoe / 100)
  let mp := (5 * doy + 2) / 153
  let d := doy - (153 * mp + 2) / 5 + 1
  let m := if mp < 10 then mp + 3 else mp - 9
  (if m ≤ 2 then y + 1 else y, m, d)

/-- strftime with the YYYY-MM-DD format on a day count. -/
def formatDate (n : Nat) : String :=
  let ymd := civilFromDays n
  padNat 4 ymd.1 ++ "-" ++ padNat 2 ymd.2.1 ++ "-" ++ padNat 2 ymd.2.2

/-- Python datetime.weekday of day n (Monday = 0); 1970-01-01 was a
Thursday. -/
def pyWeekday (n : Nat) : Nat :=
  (n + 3) % 7

/-! ## Regular expressions

Embedding of the regex dialect used by the source patterns and a
backtracking matcher with Python re.search semantics. Quantifiers carry a
greediness flag through separate constructors; grp records a numbered
capturing group; endS is the end-of-string anchor. -/

inductive RE where
  | eps : RE
  | lit : Char → RE
  | digit : RE
  | space : RE
  | anyc : RE
  | oneOf : List Char → RE
  | cat : RE → RE → RE
  | alt : RE → RE → RE
  | grp : Nat → RE → RE
  | starG : RE → RE
  | starL : RE → RE
  | endS : RE
deriving Repr

/-- Literal word: concatenation of character literals. -/
def reLit (s : String) : RE :=
  s.toList.foldr (fun c r => RE.cat (RE.lit c) r) RE.eps

/-- Concatenation of a pattern list. -/
def reCat (l : List RE) : RE :=
  l.foldr RE.cat RE.eps

/-- Left-biased alternation of a pattern list, mirroring the order of the
branches in the source pattern text. -/
def reAlt : List RE → RE
  | [] => RE.eps
  | [r] => r
  | r :: rest => RE.alt r (reAlt rest)

/-- Greedy plus. -/
def rePlusG (r : RE) : RE := RE.cat r (RE.starG r)

/-- Lazy plus. -/
def rePlusL (r : RE) : RE := RE.cat r (RE.starL r)

/-- Greedy option. -/
def reOptG (r : RE) : RE := RE.alt r RE.eps

/-- Bounded repetition with n mandatory copies. -/
def reRep (n : Nat) (r : RE) : RE :=
  reCat (List.replicate n r)

/-- Capture list: entries (group index, start offset, end offset), most
recent first. -/
abbrev Caps := List (Nat × Nat × Nat)

/-- Backtracking matcher in continuation-passing style. Returns the end
offset and captures of the first match in the backtracking order of the
Python engine: alternation tries its left branch first, a greedy star tries
the longer match first, a lazy star tries the shorter match first. The
fuel argument only bounds the recursion depth; it is chosen large enough
below that it never runs out on the inputs considered. -/
def reMat (fuel : Nat) (r : RE) (rem : List Char) (pos : Nat) (cs : Caps)
    (k : List Char → Nat → Caps → Option (Nat × Caps)) : Option (Nat × Caps) :=
  match fuel with
  | 0 => none
  | fuel + 1 =>
    match r with
    | RE.eps => k rem pos cs
    | RE.lit c =>
      match rem with
      | [] => none
      | d :: rest => if d = c then k rest (pos + 1) cs else none
    | RE.digit =>
      match rem with
      | [] => none
      | d :: rest => if pyIsDigit d then k rest (pos + 1) cs else none
    | RE.space =>
      match rem with
      | [] => none
      | d :: rest => if pyIsSpace d then k rest (pos + 1) cs else none
    | RE.anyc =>
      match rem with
      | [] => none
      | d :: rest => if d = '\n' then none else k rest (pos + 1) cs
    | RE.oneOf l =>
      match rem with
      | [] => none
      | d :: rest => if l.contains d then k rest (pos + 1) cs else none
    | RE.cat a b =>
      reMat fuel a rem pos cs (fun rem2 p2 c2 => reMat fuel b rem2 p2 c2 k)
    | RE.alt a b =>
      match reMat fuel a rem pos cs k with
      | some res => some res
      | none => reMat fuel b rem pos cs k
    | RE.grp i a =>
      reMat fuel a rem pos cs (fun rem2 p2 c2 => k rem2 p2 ((i, pos, p2) :: c2))
    | RE.starG a =>
      match reMat fuel a rem pos cs
          (fun rem2 p2 c2 =>
            if p2 = pos then none else reMat fuel (RE.starG a) rem2 p2 c2 k) with
      | some res => some res
      | none => k rem pos cs
    | RE.starL a =>
      match k rem pos cs with
      | some res => some res
      | none =>
        reMat fuel a rem pos cs
          (fun rem2 p2 c2 =>
            if p2 = pos then none else reMat fuel (RE.starL a) rem2 p2 c2 k)
    | RE.endS =>
      match rem with
      | [] => k rem pos cs
      | _ :: _ => none

/-- A match: start offset, end offset, captures. -/
structure ReMatch where
  start : Nat
  stop : Nat
  caps : Caps
deriving Repr

/-- Scan of the starting positions from left to right, as re.search does:
the first position admitting a match wins. -/
def reSearchAux (fuel : Nat) (r : RE) : List Char → Nat → Option ReMatch
  | rem, pos =>
    match reMat fuel r rem pos [] (fun _ p c => some (p, c)) with
    | some (e, cs) => some ⟨pos, e, cs⟩
    | none =>
      match rem with
      | [] => none
      | _ :: rest => reSearchAux fuel r rest (pos + 1)

/-- Fuel bound: generous upper bound on the recursion depth of the matcher
for the small patterns of the source. -/
def reFuel (s : List Char) : Nat :=
  1000 + 100 * (s.length + 1) * (s.length + 1)

/-- Python re.search: first match, or none. -/
def reSearch (r : RE) (s : String) : Option ReMatch :=
  reSearchAux (reFuel s.toList) r s.toList 0

/-- Truthiness of re.search, as the trigger loops use it. -/
def reTest (r : RE) (s : String) : Bool :=
  (reSearch r s).isSome

/-- Text of the span [a, b) of the subject string. -/
def sliceStr (s : String) (a b : Nat) : String :=
  String.mk ((s.toList.drop a).take (b - a))

/-- match.group(i): the text of the most recent capture of group i, or
none when the group did not participate in the match. -/
def matchGroup (s : String) (m : ReMatch) (i : Nat) : Option String :=
  match m.caps.find? (fun e => e.1 = i) with
  | none => none
  | some e => some (sliceStr s e.2.1 e.2.2)

/-- re.sub with the empty replacement string, used by the title cleanup:
every non-overlapping match, scanning from the left, is deleted. All the
patterns it is used with consume at least one character. -/
def reSubEmpty (fuel : Nat) (r : RE) (s : String) : String :=
  match fuel with
  | 0 => s
  | fuel + 1 =>
    match reSearch r s with
    | none => s
    | some m =>
      if m.stop ≤ m.start then s
      else
        String.mk (s.toList.take m.start) ++
          reSubEmpty fuel r (String.mk (s.toList.drop m.stop))

/-- Python str.replace with the empty replacement, used on the weekday
patterns (removing the leading article). -/
def removeAll (pat : List Char) : List Char → List Char
  | [] => []
  | c :: rest =>
    if pat ≠ [] ∧ listIsPrefix pat (c :: rest) then
      removeAll pat (List.drop (pat.length - 1) rest)
    else c :: removeAll pat rest
termination_by l => l.length
decreasing_by
  all_goals simp [List.length_drop]
  all_goals omega

def pyReplaceEmpty (s pat : String) : String :=
  String.mk (removeAll pat.toList s.toList)

/-! ## The source patterns (IntentParser class data)

Each definition below is the direct transcription of one regular
expression string from app/assistants/actions.py; capture-group numbers
follow the order of the opening parentheses in the pattern text. -/

/-- Pattern text: (crear|agregar|añadir|nuevo|añade)\s+(un\s+)?producto -/
def prodTrig1 : RE :=
  reCat [RE.grp 1 (reAlt [reLit "crear", reLit "agregar", reLit "añadir",
           reLit "nuevo", reLit "añade"]),
         rePlusG RE.space,
         reOptG (RE.grp 2 (reCat [reLit "un", rePlusG RE.space])),
         reLit "producto"]

/-- Pattern text:
quiero\s+(crear|agregar|añadir)\s+(.+?)\s+(a|al)\s+(catálogo|inventario|productos) -/
def prodTrig2 : RE :=
  reCat [reLit "quiero", rePlusG RE.space,
         RE.grp 1 (reAlt [reLit "crear", reLit "agregar", reLit "añadir"]),
         rePlusG RE.space,
         RE.grp 2 (rePlusL RE.anyc),
         rePlusG RE.space,
         RE.grp 3 (reAlt [reLit "a", reLit "al"]),
         rePlusG RE.space,
         RE.grp 4 (reAlt [reLit "catálogo", reLit "inventario", reLit "productos"])]

/-- The common head (agreg(a|ar)|añad(e|ir)|crea(r)?) of the third product
trigger and of the first extraction pattern, groups 1 to 4. -/
def prodVerbHead : RE :=
  RE.grp 1 (reAlt [reCat [reLit "agreg", RE.grp 2 (reAlt [reLit "a", reLit "ar"])],
                   reCat [reLit "añad", RE.grp 3 (reAlt [reLit "e", reLit "ir"])],
                   reCat [reLit "crea", reOptG (RE.grp 4 (reLit "r"))]])

/-- Pattern text: (agreg(a|ar)|añad(e|ir)|crea(r)?)\s+(.+?)\s+(por|a)\s+\$?(\d+) -/
def prodTrig3 : RE :=
  reCat [prodVerbHead, rePlusG RE.space,
         RE.grp 5 (rePlusL RE.anyc),
         rePlusG RE.space,
         RE.grp 6 (reAlt [reLit "por", reLit "a"]),
         rePlusG RE.space,
         reOptG (RE.lit '$'),
         RE.grp 7 (rePlusG RE.digit)]

def CREATE_PRODUCT_PATTERNS : List RE :=
  [prodTrig1, prodTrig2, prodTrig3]

/-- Pattern text: (crear?|agregar?|añadir?|nueva?)\s+(una\s+)?tarea -/
def taskTrig1 : RE :=
  reCat [RE.grp 1 (reAlt [RE.cat (reLit "crea") (reOptG (RE.lit 'r')),
                          RE.cat (reLit "agrega") (reOptG (RE.lit 'r')),
                          RE.cat (reLit "añadi") (reOptG (RE.lit 'r')),
                          RE.cat (reLit "nuev") (reOptG (RE.lit 'a'))]),
         rePlusG RE.space,
         reOptG (RE.grp 2 (reCat [reLit "una", rePlusG RE.space])),
         reLit "tarea"]

/-- Pattern text: tengo\s+que\s+(.+) -/
def taskTrig2 : RE :=
  reCat [reLit "tengo", rePlusG RE.space, reLit "que", rePlusG RE.space,
         RE.grp 1 (rePlusG RE.anyc)]

/-- Pattern text: debo\s+(.+) -/
def taskTrig3 : RE :=
  reCat [reLit "debo", rePlusG RE.space, RE.grp 1 (rePlusG RE.anyc)]

/-- Pattern text: recuérda(me)?\s+(.+) -/
def taskTrig4 : RE :=
  reCat [reLit "recuérda", reOptG (RE.grp 1 (reLit "me")), rePlusG RE.space,
         RE.grp 2 (rePlusG RE.anyc)]

/-- Pattern text: anot(a|ar)\s+(que|una\s+tarea)?\s*:?\s*(.+) -/
def taskTrig5 : RE :=
  reCat [reLit "anot", RE.grp 1 (reAlt [reLit "a", reLit "ar"]),
         rePlusG RE.space,
         reOptG (RE.grp 2 (reAlt [reLit "que", reCat [reLit "una", rePlusG RE.space, reLit "tarea"]])),
         RE.starG RE.space, reOptG (RE.lit ':'), RE.starG RE.space,
         RE.grp 3 (rePlusG RE.anyc)]

def CREATE_TASK_PATTERNS : List RE :=
  [taskTrig1, taskTrig2, taskTrig3, taskTrig4, taskTrig5]

/-- Pattern text: (crear|agregar|añadir|nueva|agendar)\s+(una\s+)?(cita|reunión|meeting|junta) -/
def apptTrig1 : RE :=
  reCat [RE.grp 1 (reAlt [reLit "crear", reLit "agregar", reLit "añadir",
                          reLit "nueva", reLit "agendar"]),
         rePlusG RE.space,
         reOptG (RE.grp 2 (reCat [reLit "una", rePlusG RE.space])),
         RE.grp 3 (reAlt [reLit "cita", reLit "reunión", reLit "meeting", reLit "junta"])]

/-- Pattern text: tengo\s+(una\s+)?(cita|reunión|junta)\s+(.+) -/
def apptTrig2 : RE :=
  reCat [reLit "tengo", rePlusG RE.space,
         reOptG (RE.grp 1 (reCat [reLit "una", rePlusG RE.space])),
         RE.grp 2 (reAlt [reLit "cita", reLit "reunión", reLit "junta"]),
         rePlusG RE.space,
         RE.grp 3 (rePlusG RE.anyc)]

/-- Pattern text: reunión\s+con\s+(.+) -/
def apptTrig3 : RE :=
  reCat [reLit "reunión", rePlusG RE.space, reLit "con", rePlusG RE.space,
         RE.grp 1 (rePlusG RE.anyc)]

/-- Pattern text: (programa|agendar|anotar)\s+(una\s+)?(cita|reunión|junta) -/
def apptTrig4 : RE :=
  reCat [RE.grp 1 (reAlt [reLit "programa", reLit "agendar", reLit "anotar"]),
         rePlusG RE.space,
         reOptG (RE.grp 2 (reCat [reLit "una", rePlusG RE.space])),
         RE.grp 3 (reAlt [reLit "cita", reLit "reunión", reLit "junta"])]

def CREATE_APPOINTMENT_PATTERNS : List RE :=
  [apptTrig1, apptTrig2, apptTrig3, apptTrig4]

/-- The DATE_PATTERNS dict of the source, in its insertion order; a value
of none marks the weekday entries whose offset is computed. -/
def DATE_PATTERNS : List (String × Option Nat) :=
  [("hoy", some 0), ("mañana", some 1), ("pasado mañana", some 2),
   ("el lunes", none), ("el martes", none), ("el miércoles", none),
   ("el jueves", none), ("el viernes", none), ("el sábado", none),
   ("el domingo", none)]

/-- Pattern text of TIME_PATTERN: (\d{1,2}):?(\d{2})?\s*(am|pm|a\.m\.|p\.m\.)? -/
def timeRe : RE :=
  reCat [RE.grp 1 (RE.cat RE.digit (reOptG RE.digit)),
         reOptG (RE.lit ':'),
         reOptG (RE.grp 2 (RE.cat RE.digit RE.digit)),
         RE.starG RE.space,
         reOptG (RE.grp 3 (reAlt [reLit "am", reLit "pm", reLit "a.m.", reLit "p.m."]))]

/-- The PRIORITY_PATTERNS dict of the source, in its insertion order. -/
def PRIORITY_PATTERNS : List (String × String) :=
  [("urgente", "high"), ("importante", "high"), ("prioritario", "high"),
   ("alta prioridad", "high"), ("normal", "medium"), ("media prioridad", "medium"),
   ("baja prioridad", "low"), ("cuando pueda", "low")]

/-- Extraction pattern of _extract_product_params:
(agreg(a|ar)|añad(e|ir)|crea(r)?)\s+(.+?)\s+por\s+\$?(\d+) -/
def prodExtractA : RE :=
  reCat [prodVerbHead, rePlusG RE.space,
         RE.grp 5 (rePlusL RE.anyc),
         rePlusG RE.space, reLit "por", rePlusG RE.space,
         reOptG (RE.lit '$'),
         RE.grp 6 (rePlusG RE.digit)]

/-- Extraction pattern of _extract_product_params:
producto:?\s*(.+?)\s*-\s*\$?(\d+\.?\d*)\s*-?\s*(\d+)? -/
def prodExtractB : RE :=
  reCat [reLit "producto", reOptG (RE.lit ':'), RE.starG RE.space,
         RE.grp 1 (rePlusL RE.anyc),
         RE.starG RE.space, RE.lit '-', RE.starG RE.space,
         reOptG (RE.lit '$'),
         RE.grp 2 (reCat [rePlusG RE.digit, reOptG (RE.lit '.'), RE.starG RE.digit]),
         RE.starG RE.space, reOptG (RE.lit '-'), RE.starG RE.space,
         reOptG (RE.grp 3 (rePlusG RE.digit))]

/-- Fallback trigger of _extract_product_params:
(crear|agregar|añadir)\s+(un\s+)?producto -/
def prodExtractC : RE :=
  reCat [RE.grp 1 (reAlt [reLit "crear", reLit "agregar", reLit "añadir"]),
         rePlusG RE.space,
         reOptG (RE.grp 2 (reCat [reLit "un", rePlusG RE.space])),
         reLit "producto"]

/-- Fourth title pattern of _extract_task_params:
(crear?|agregar?|añadir?)\s+(?:una\s+)?tarea\s+(?:para\s+)?(.+) -/
def taskExtract4 : RE :=
  reCat [RE.grp 1 (reAlt [RE.cat (reLit "crea") (reOptG (RE.lit 'r')),
                          RE.cat (reLit "agrega") (reOptG (RE.lit 'r')),
                          RE.cat (reLit "añadi") (reOptG (RE.lit 'r'))]),
         rePlusG RE.space,
         reOptG (reCat [reLit "una", rePlusG RE.space]),
         reLit "tarea", rePlusG RE.space,
         reOptG (reCat [reLit "para", rePlusG RE.space]),
         RE.grp 2 (rePlusG RE.anyc)]

/-- The non-capturing tail (?:\s+el|\s+a\s+las|\s+mañana|\s+hoy|$) shared by
the appointment title patterns. -/
def apptTail : RE :=
  reAlt [RE.cat (rePlusG RE.space) (reLit "el"),
         reCat [rePlusG RE.space, RE.lit 'a', rePlusG RE.space, reLit "las"],
         RE.cat (rePlusG RE.space) (reLit "mañana"),
         RE.cat (rePlusG RE.space) (reLit "hoy"),
         RE.endS]

/-- Title pattern: reunión\s+con\s+(.+?)(?:\s+el|\s+a\s+las|\s+mañana|\s+hoy|$) -/
def apptExtract1 : RE :=
  reCat [reLit "reunión", rePlusG RE.space, reLit "con", rePlusG RE.space,
         RE.grp 1 (rePlusL RE.anyc), apptTail]

/-- Title pattern: (cita|junta)\s+con\s+(.+?)(?:\s+el|\s+a\s+las|\s+mañana|\s+hoy|$) -/
def apptExtract2 : RE :=
  reCat [RE.grp 1 (reAlt [reLit "cita", reLit "junta"]),
         rePlusG RE.space, reLit "con", rePlusG RE.space,
         RE.grp 2 (rePlusL RE.anyc), apptTail]

/-- Title pattern:
(crear|agendar|agregar)\s+(cita|reunión|junta):?\s*(.+?)(?:\s+el|\s+a\s+las|\s+mañana|\s+hoy|$) -/
def apptExtract3 : RE :=
  reCat [RE.grp 1 (reAlt [reLit "crear", reLit "agendar", reLit "agregar"]),
         rePlusG RE.space,
         RE.grp 2 (reAlt [reLit "cita", reLit "reunión", reLit "junta"]),
         reOptG (RE.lit ':'), RE.starG RE.space,
         RE.grp 3 (rePlusL RE.anyc), apptTail]

/-- Title pattern: tengo\s+(junta|reunión)\s+de\s+(.+?)(?:\s+el|\s+a\s+las|\s+mañana|\s+hoy|$) -/
def apptExtract4 : RE :=
  reCat [reLit "tengo", rePlusG RE.space,
         RE.grp 1 (reAlt [reLit "junta", reLit "reunión"]),
         rePlusG RE.space, reLit "de", rePlusG RE.space,
         RE.grp 2 (rePlusL RE.anyc), apptTail]

/-- Explicit date pattern of _extract_date: (\d{1,2}) SEP (\d{1,2}) SEP (\d{4}),
where SEP is the character class holding the slash and the dash. -/
def dateExplicitRe : RE :=
  reCat [RE.grp 1 (RE.cat RE.digit (reOptG RE.digit)),
         RE.oneOf ['/', '-'],
         RE.grp 2 (RE.cat RE.digit (reOptG RE.digit)),
         RE.oneOf ['/', '-'],
         RE.grp 3 (reRep 4 RE.digit)]

/-- First cleanup pattern of _clean_task_title:
\s+(hoy|mañana|pasado mañana|el\s+(lunes|martes|miércoles|jueves|viernes|sábado|domingo)) -/
def cleanDateRe : RE :=
  reCat [rePlusG RE.space,
         RE.grp 1 (reAlt [reLit "hoy", reLit "mañana", reLit "pasado mañana",
           reCat [reLit "el", rePlusG RE.space,
                  RE.grp 2 (reAlt [reLit "lunes", reLit "martes", reLit "miércoles",
                    reLit "jueves", reLit "viernes", reLit "sábado", reLit "domingo"])]])]

/-- Second cleanup pattern of _clean_task_title: \s+a\s+las\s+\d{1,2}:\d{2} -/
def cleanTimeRe : RE :=
  reCat [rePlusG RE.space, RE.lit 'a', rePlusG RE.space, reLit "las",
         rePlusG RE.space, RE.digit, reOptG RE.digit, RE.lit ':',
         RE.digit, RE.digit]

/-- Third cleanup pattern of _clean_task_title: \s+(urgente|importante|prioritario) -/
def cleanPrioRe : RE :=
  reCat [rePlusG RE.space,
         RE.grp 1 (reAlt [reLit "urgente", reLit "importante", reLit "prioritario"])]

/-- Weekday name table of _get_next_weekday. -/
def weekdays : List (String × Nat) :=
  [("lunes", 0), ("martes", 1), ("miércoles", 2), ("jueves", 3),
   ("viernes", 4), ("sábado", 5), ("domingo", 6)]

/-! ## ExtractedParameters

The parameter dict returned by the extractors. Keys that a given intent
kind never sets stay at their none default; the needs_clarification flag
and the missing list model the clarification dicts. -/

structure Params where
  needs_clarification : Bool := false
  missing : List String := []
  name : Option String := none
  price : Option Rat := none
  stock : Option Nat := none
  title : Option String := none
  due_date : Option String := none
  priority : Option String := none
  status : Option String := none
  start_datetime : Option String := none
  reminder_minutes : Option Nat := none
  description : Option String := none
  sku : Option String := none
  category : Option String := none
  end_datetime : Option String := none
  location : Option String := none
  attendees : Option String := none
deriving Repr, DecidableEq

def Params.empty : Params := {}

/-! ## IntentParser -/

/-- IntentParser._extract_priority: first dict entry whose key occurs as a
substring wins; default medium. -/
def extract_priority (message : String) : String :=
  let message_lower := pyLower message
  match PRIORITY_PATTERNS.find? (fun pp => pyContains message_lower pp.1) with
  | some pp => pp.2
  | none => "medium"

/-- IntentParser._get_next_weekday with the wall clock made explicit:
now is the current day count. Unknown names return none, as the source
returns None. -/
def get_next_weekday (now : Nat) (day_name : String) : Option String :=
  match weekdays.find? (fun w => w.1 = day_name) with
  | none => none
  | some w =>
    let daysAhead : Int := (w.2 : Int) - (pyWeekday now : Int)
    let daysAhead : Int := if daysAhead ≤ 0 then daysAhead + 7 else daysAhead
    some (formatDate (now + daysAhead.toNat))

/-- IntentParser._extract_date: the DATE_PATTERNS entries are scanned in
dict order with a substring test; a hit on a fixed-offset entry formats
now + offset, a hit on a weekday entry delegates to the next-weekday
computation after deleting the article from the key; only when no relative
entry hits is the explicit DD/MM/YYYY or DD-MM-YYYY pattern searched. -/
def extract_date (now : Nat) (message : String) : Option String :=
  let message_lower := pyLower message
  match DATE_PATTERNS.find? (fun dp => pyContains message_lower dp.1) with
  | some dp =>
    match dp.2 with
    | some offset => some (formatDate (now + offset))
    | none => get_next_weekday now (pyReplaceEmpty dp.1 "el ")
  | none =>
    match reSearch dateExplicitRe message with
    | some m =>
      let day := (matchGroup message m 1).getD ""
      let month := (matchGroup message m 2).getD ""
      let year := (matchGroup message m 3).getD ""
      some (year ++ "-" ++ pyZfill 2 month ++ "-" ++ pyZfill 2 day)
    | none => none

/-- The 12-hour to 24-hour conversion step of _extract_time: the guards
test the substrings pm and am against the captured period (so the dotted
spellings, which contain neither contiguous substring, leave the hour
unchanged); pm below 12 adds 12, am at exactly 12 becomes 0. -/
def hour24 (hour : Nat) (period : Option String) : Nat :=
  let hasPm := match period with | some p => pyContains p "pm" | none => false
  let hasAm := match period with | some p => pyContains p "am" | none => false
  if hasPm && hour < 12 then hour + 12
  else if hasAm && hour = 12 then 0
  else hour

/-- IntentParser._extract_time: search TIME_PATTERN; hour and minute from
groups 1 and 2 (minute defaults to 0), then the 12-hour conversion. -/
def extract_time (message : String) : Option String :=
  let ml := pyLower message
  match reSearch timeRe ml with
  | none => none
  | some m =>
    let hour := digitsVal ((matchGroup ml m 1).getD "").toList
    let minute :=
      match matchGroup ml m 2 with
      | some s => digitsVal s.toList
      | none => 0
    let period := matchGroup ml m 3
    some (padNat 2 (hour24 hour period) ++ ":" ++ padNat 2 minute)

/-- IntentParser._clean_task_title: three global substitutions (date words,
explicit times, priority words) followed by a strip. The substitution fuel
is the string length plus one, enough since every match deletes at least
one character. -/
def clean_task_title (title : String) : String :=
  let t1 := reSubEmpty (title.length + 1) cleanDateRe title
  let t2 := reSubEmpty (t1.length + 1) cleanTimeRe t1
  let t3 := reSubEmpty (t2.length + 1) cleanPrioRe t2
  pyStrip t3

/-- IntentParser._extract_product_params. The extraction works on the
lowercased copy of the message it receives. -/
def extract_product_params (message : String) : Option Params :=
  let message_lower := pyLower message
  match reSearch prodExtractA message_lower with
  | some m =>
    some { name := some (pyTitle (pyStrip ((matchGroup message_lower m 5).getD ""))),
           price := some (pyFloat ((matchGroup message_lower m 6).getD "")),
           stock := some 1 }
  | none =>
  match reSearch prodExtractB message_lower with
  | some m =>
    some { name := some (pyTitle (pyStrip ((matchGroup message_lower m 1).getD ""))),
           price := some (pyFloat ((matchGroup message_lower m 2).getD "")),
           stock := some (match matchGroup message_lower m 3 with
                          | some s => digitsVal s.toList
                          | none => 1) }
  | none =>
  if reTest prodExtractC message_lower then
    some { needs_clarification := true, missing := ["name", "price"] }
  else none

/-- IntentParser._extract_task_params. The Python variable title starts as
None and a matched group stripped down to the empty string is falsy, so
the patterns are tried in order until a non-empty title appears; the empty
string therefore serves as the unset sentinel here exactly as falsiness
does in the source. -/
def extract_task_params (now : Nat) (message : String) : Option Params :=
  let message_lower := pyLower message
  let title :=
    match reSearch taskTrig2 message_lower with
    | some m => pyStrip ((matchGroup message_lower m 1).getD "")
    | none => ""
  let title :=
    if title = "" then
      match reSearch taskTrig3 message_lower with
      | some m => pyStrip ((matchGroup message_lower m 1).getD "")
      | none => ""
    else title
  let title :=
    if title = "" then
      match reSearch taskTrig4 message_lower with
      | some m => pyStrip ((matchGroup message_lower m 2).getD "")
      | none => ""
    else title
  let title :=
    if title = "" then
      match reSearch taskExtract4 message_lower with
      | some m => pyStrip ((matchGroup message_lower m 2).getD "")
      | none => ""
    else title
  if title = "" then
    some { needs_clarification := true, missing := ["title"] }
  else
    let title := clean_task_title title
    some { title := some (pyCapitalize title),
           due_date := extract_date now message_lower,
           priority := some (extract_priority message_lower),
           status := some "pending" }

/-- IntentParser._extract_appointment_params. Title sub-patterns in source
order with the generic fallback, then the date and the time are extracted
separately and combined: both present concatenates them, date alone uses
the 09:00:00 default time, and an absent date uses tomorrow at 09:00:00
regardless of the extracted time. -/
def extract_appointment_params (now : Nat) (message : String) : Option Params :=
  let message_lower := pyLower message
  let title :=
    match reSearch apptExtract1 message_lower with
    | some m => "Reunión con " ++ pyStrip ((matchGroup message_lower m 1).getD "")
    | none => ""
  let title :=
    if title = "" then
      match reSearch apptExtract2 message_lower with
      | some m =>
        pyCapitalize ((matchGroup message_lower m 1).getD "") ++ " con " ++
          pyStrip ((matchGroup message_lower m 2).getD "")
      | none => ""
    else title
  let title :=
    if title = "" then
      match reSearch apptExtract3 message_lower with
      | some m => pyStrip ((matchGroup message_lower m 3).getD "")
      | none => ""
    else title
  let title :=
    if title = "" then
      match reSearch apptExtract4 message_lower with
      | some m =>
        pyCapitalize ((matchGroup message_lower m 1).getD "") ++ " de " ++
          pyStrip ((matchGroup message_lower m 2).getD "")
      | none => ""
    else title
  let title := if title = "" then "Nueva cita" else title
  let date_str := extract_date now message_lower
  let time_str := extract_time message_lower
  let start_datetime :=
    match date_str, time_str with
    | some d, some t => d ++ " " ++ t ++ ":00"
    | some d, none => d ++ " 09:00:00"
    | none, _ => formatDate (now + 1) ++ " 09:00:00"
  some { title := some (pyCapitalize title),
         start_datetime := some start_datetime,
         status := some "scheduled",
         reminder_minutes := some 15 }

/-- Trigger scan of one pattern list against the lowercased message, the
way the source loops call re.search for each pattern. -/
def anySearch (patterns : List RE) (s : String) : Bool :=
  patterns.any (fun p => reTest p s)

/-- One category step of detect_intent: when some trigger of the category
fires, the category extractor runs; a none result falls through to the
next category. The source runs the extractor once per matching trigger,
but the extractor is a pure function of the message, so running it once
per category that has a matching trigger is equivalent. -/
def tryCategory (trig : Bool) (extract : Option Params) : Option Params :=
  if trig then extract else none

/-- IntentParser.detect_intent. The intent is returned as the literal tag
string of the source; the wall clock parameter now feeds the date
extraction. -/
def detect_intent (now : Nat) (message : String) : String × Params :=
  let message_lower := pyStrip (pyLower message)
  match tryCategory (anySearch CREATE_PRODUCT_PATTERNS message_lower)
      (extract_product_params message) with
  | some params => ("create_product", params)
  | none =>
  match tryCategory (anySearch CREATE_TASK_PATTERNS message_lower)
      (extract_task_params now message) with
  | some params => ("create_task", params)
  | none =>
  match tryCategory (anySearch CREATE_APPOINTMENT_PATTERNS message_lower)
      (extract_appointment_params now message) with
  | some params => ("create_appointment", params)
  | none => ("query", Params.empty)

/-! ## Entity store

The SQLite tables behind app/db/products.py and app/db/personal.py,
modelled as lists of rows; a create call appends a row whose id is the
next autoincrement value and returns that id. -/

structure ProductRec where
  id : Nat
  user_id : Nat
  name : String
  price : Rat
  description : Option String := none
  sku : Option String := none
  category : Option String := none
  stock : Nat := 0
  active : Bool := true
deriving Repr, DecidableEq

structure TaskRec where
  id : Nat
  user_id : Nat
  title : String
  description : Option String := none
  priority : String := "medium"
  due_date : Option String := none
  category : Option String := none
  reminder_minutes : Nat := 60
  status : String := "pending"
deriving Repr, DecidableEq

structure ApptRec where
  id : Nat
  user_id : Nat
  title : String
  description : Option String := none
  start_datetime : String
  end_datetime : Option String := none
  location : Option String := none
  attendees : Option String := none
  reminder_minutes : Nat := 15
  status : String := "scheduled"
deriving Repr, DecidableEq

structure Stores where
  products : List ProductRec := []
  tasks : List TaskRec := []
  appointments : List ApptRec := []
deriving Repr, DecidableEq

def Stores.empty : Stores := {}

/-- products_db.create_product: INSERT returning the new row id. -/
def create_product (st : Stores) (p : ProductRec) : Nat × Stores :=
  let pid := st.products.length + 1
  (pid, { st with products := st.products ++ [{ p with id := pid }] })

/-- personal_db.create_task. -/
def create_task (st : Stores) (t : TaskRec) : Nat × Stores :=
  let tid := st.tasks.length + 1
  (tid, { st with tasks := st.tasks ++ [{ t with id := tid }] })

/-- personal_db.create_appointment. -/
def create_appointment (st : Stores) (a : ApptRec) : Nat × Stores :=
  let aid := st.appointments.length + 1
  (aid, { st with appointments := st.appointments ++ [{ a with id := aid }] })

/-! ## ActionExecutor -/

/-- The ActionOutcome dict of the source: success flag, message, optional
created-entity id. -/
structure ExecResult where
  success : Bool
  message : String
  data : Option Nat
deriving Repr, DecidableEq

/-- ActionExecutor._create_product. The clarification check comes first;
then the required dict keys name and price are read — a missing key raises
KeyError inside the try, which the except arm converts into a failure
whose message embeds the Python rendering of the exception. -/
def executor_create_product (user_id : Nat) (params : Params) (st : Stores) :
    ExecResult × Stores :=
  if params.needs_clarification then
    ({ success := false,
       message := "Necesito más información. Por favor proporciona: " ++
         joinComma params.missing,
       data := none }, st)
  else
    match params.name, params.price with
    | some n, some pr =>
      let res := create_product st
        { id := 0, user_id := user_id, name := n, price := pr,
          description := params.description, sku := params.sku,
          category := params.category, stock := params.stock.getD 1 }
      ({ success := true,
         message := "✅ Producto '" ++ n ++ "' creado exitosamente por $" ++ toString pr,
         data := some res.1 }, res.2)
    | none, _ =>
      ({ success := false, message := "Error al crear producto: 'name'", data := none }, st)
    | some _, none =>
      ({ success := false, message := "Error al crear producto: 'price'", data := none }, st)

/-- ActionExecutor._create_task. -/
def executor_create_task (user_id : Nat) (params : Params) (st : Stores) :
    ExecResult × Stores :=
  if params.needs_clarification then
    ({ success := false,
       message := "Necesito más información. Por favor proporciona: " ++
         joinComma params.missing,
       data := none }, st)
  else
    match params.title with
    | some t =>
      let res := create_task st
        { id := 0, user_id := user_id, title := t,
          description := params.description,
          priority := params.priority.getD "medium",
          due_date := params.due_date, category := params.category,
          reminder_minutes := params.reminder_minutes.getD 60 }
      let due_info :=
        match params.due_date with
        | some d => " para el " ++ d
        | none => ""
      let priority_emoji :=
        match params.priority.getD "medium" with
        | "high" => "🔴"
        | "medium" => "🟡"
        | "low" => "🟢"
        | _ => "⚪"
      ({ success := true,
         message := "✅ Tarea creada: " ++ priority_emoji ++ " '" ++ t ++ "'" ++ due_info,
         data := some res.1 }, res.2)
    | none =>
      ({ success := false, message := "Error al crear tarea: 'title'", data := none }, st)

/-- ActionExecutor._create_appointment. Unlike the product and task arms,
this one performs no needs_clarification check: it goes straight to the
try block reading the title and start_datetime keys. -/
def executor_create_appointment (user_id : Nat) (params : Params) (st : Stores) :
    ExecResult × Stores :=
  match params.title, params.start_datetime with
  | some t, some sd =>
    let res := create_appointment st
      { id := 0, user_id := user_id, title := t,
        description := params.description, start_datetime := sd,
        end_datetime := params.end_datetime, location := params.location,
        attendees := params.attendees,
        reminder_minutes := params.reminder_minutes.getD 15 }
    ({ success := true,
       message := "✅ Cita agendada: '" ++ t ++ "' para el " ++ sd,
       data := some res.1 }, res.2)
  | none, _ =>
    ({ success := false, message := "Error al crear cita: 'title'", data := none }, st)
  | some _, none =>
    ({ success := false, message := "Error al crear cita: 'start_datetime'", data := none }, st)

/-- ActionExecutor.execute_action: dispatch on the intent tag. -/
def execute_action (user_id : Nat) (intent : String) (params : Params) (st : Stores) :
    ExecResult × Stores :=
  if intent = "create_product" then executor_create_product user_id params st
  else if intent = "create_task" then executor_create_task user_id params st
  else if intent = "create_appointment" then executor_create_appointment user_id params st
  else ({ success := false, message := "Intención no reconocida", data := none }, st)

/-! ## Store reads used by the assistants -/

/-- Stable insertion sort with respect to a boolean comparison le, where
le x y reads x may come no later than y. A stable sort is what the source
relies on: both SQLite result ordering (deterministic for these tables)
and the Python list sort are modelled by it. -/
def insertStable (le : α → α → Bool) (x : α) : List α → List α
  | [] => [x]
  | y :: ys => if le x y then x :: y :: ys else y :: insertStable le x ys

def sortStable (le : α → α → Bool) (l : List α) : List α :=
  l.foldr (insertStable le) []

/-- The product dict as the commercial assistant caches it: the row
columns of list_products plus the _relevance_score key that the search
writes into the dict, absent until then. -/
structure ProductDict where
  id : Nat
  user_id : Nat
  name : String
  description : Option String := none
  price : Rat := 0
  sku : Option String := none
  category : Option String := none
  stock : Nat := 0
  active : Bool := true
  relevance_score : Option Nat := none
deriving Repr, DecidableEq

def productToDict (p : ProductRec) : ProductDict :=
  { id := p.id, user_id := p.user_id, name := p.name, description := p.description,
    price := p.price, sku := p.sku, category := p.category, stock := p.stock,
    active := p.active }

/-- products_db.list_products with active_only: rows of the tenant with
active = 1, ORDER BY name ASC. -/
def list_products (st : Stores) (uid : Nat) : List ProductDict :=
  sortStable (fun p q => p.name ≤ q.name)
    ((st.products.filter (fun p => p.user_id = uid && p.active)).map productToDict)

/-- products_db.get_categories: distinct non-null non-empty categories of
the tenant, ORDER BY category. -/
def get_categories (st : Stores) (uid : Nat) : List String :=
  sortStable (fun a b => a ≤ b)
    (((st.products.filter (fun p => p.user_id = uid)).filterMap
        (fun p => match p.category with
                  | some c => if c = "" then none else some c
                  | none => none)).dedup)

/-- personal_db.list_appointments with the filters the assistant passes:
tenant rows, start_datetime within the window, the given status, ORDER BY
start_datetime ASC. -/
def list_appointments (st : Stores) (uid : Nat) (start_date end_date status : String) :
    List ApptRec :=
  sortStable (fun a b => a.start_datetime ≤ b.start_datetime)
    (st.appointments.filter (fun a =>
      a.user_id = uid && start_date ≤ a.start_datetime &&
      a.start_datetime ≤ end_date && a.status = status))

/-- personal_db.list_tasks with a status filter: tenant rows of that
status, ORDER BY due_date ASC NULLS LAST, priority DESC. -/
def list_tasks (st : Stores) (uid : Nat) (status : String) : List TaskRec :=
  sortStable (fun t u =>
    match t.due_date, u.due_date with
    | some a, some b => if a = b then decide (u.priority ≤ t.priority) else decide (a ≤ b)
    | some _, none => true
    | none, some _ => false
    | none, none => decide (u.priority ≤ t.priority))
    (st.tasks.filter (fun t => t.user_id = uid && t.status = status))

/-! ## CommercialAssistant -/

structure CommercialAssistant where
  user_id : Nat
  products_cache : Option (List ProductDict) := none
deriving Repr, DecidableEq

/-- The context dict of CommercialAssistant.get_context, together with the
assistant state after the lazy cache fill. -/
structure CommContext where
  product_count : Nat
  categories : List String
  products : List ProductDict
deriving Repr, DecidableEq

def CommercialAssistant.get_context (a : CommercialAssistant) (st : Stores) :
    CommContext × CommercialAssistant :=
  let cache :=
    match a.products_cache with
    | some ps => ps
    | none => list_products st a.user_id
  ({ product_count := cache.length, categories := get_categories st a.user_id,
     products := cache },
   { a with products_cache := some cache })

/-- The stop-word set of search_relevant_products. -/
def stop_words : List String :=
  ["el", "la", "los", "las", "un", "una", "de", "del", "que", "para", "con", "por",
   "en", "qué", "cuál", "tienes", "tiene", "hay", "busco", "necesito", "quiero",
   "me", "te"]

/-- The per-product score of search_relevant_products. The product text is
the f-string of name, description and category (a stored None value prints
as the text None); each usable query word adds 10, 5 or 3 for its first
location among name, description, category; the whole query adds 20 when
it occurs verbatim in the product text and 15 when it occurs in the SKU.
Truthiness guards: an absent or empty description, category or SKU fails
its guard. -/
def product_score (query_lower : String) (query_words : List String)
    (p : ProductDict) : Nat :=
  let product_text :=
    pyLower (p.name ++ " " ++ pyShowOpt p.description ++ " " ++ pyShowOpt p.category)
  let wordScore := query_words.foldl (fun acc word =>
    if pyContains product_text word then
      if pyContains (pyLower p.name) word then acc + 10
      else if (match p.description with
               | some d => d ≠ "" && pyContains (pyLower d) word
               | none => false) then acc + 5
      else if (match p.category with
               | some c => c ≠ "" && pyContains (pyLower c) word
               | none => false) then acc + 3
      else acc
    else acc) 0
  let exactScore := if pyContains product_text query_lower then 20 else 0
  let skuScore :=
    if (match p.sku with
        | some s => s ≠ "" && pyContains (pyLower s) query_lower
        | none => false) then 15 else 0
  wordScore + exactScore + skuScore

/-- CommercialAssistant.search_relevant_products. The dict mutation of the
source (writing _relevance_score into the cached product dicts) is made
explicit: the returned assistant carries the cache after those writes,
since the cache holds the very dicts the loop annotates. Matches are the
products scoring above zero, in cache order, sorted stably by descending
score (Python list.sort with reverse=True is stable) and truncated to
limit; when no product matched and the query yielded no usable keywords,
the first limit products are returned unscored. -/
def search_relevant_products (a : CommercialAssistant) (st : Stores)
    (query : String) (limit : Nat) : List ProductDict × CommercialAssistant :=
  let ctx := a.get_context st
  let all_products := ctx.1.products
  let a2 := ctx.2
  if all_products.isEmpty then ([], a2)
  else
    let query_lower := pyLower query
    let query_words :=
      (pySplit query_lower).filter (fun w => !(stop_words.contains w) && w.length > 2)
    let scored := all_products.map (fun p => (product_score query_lower query_words p, p))
    let newProducts :=
      scored.map (fun sp => if sp.1 > 0 then { sp.2 with relevance_score := some sp.1 } else sp.2)
    let matched :=
      (scored.filter (fun sp => sp.1 > 0)).map
        (fun sp => { sp.2 with relevance_score := some sp.1 })
    let a3 := { a2 with products_cache := some newProducts }
    if matched.isEmpty && query_words.length = 0 then
      (all_products.take limit, a3)
    else
      ((sortStable (fun p q => (q.relevance_score.getD 0) ≤ (p.relevance_score.getD 0))
          matched).take limit, a3)

/-- Outcome of one commercial process_message turn: either the action path
with the executor result (whose message is returned verbatim), or the
query path carrying the relevant products it retrieved for the prompt or
the rule-based reply. -/
inductive CommOutcome where
  | action : ExecResult → CommOutcome
  | query : List ProductDict → CommOutcome
deriving Repr, DecidableEq

/-- CommercialAssistant.process_message, its state-affecting skeleton: the
parser runs first; only a create_product intent takes the action path
(executing and, on success, invalidating the cache); every other intent
takes the query path, which searches relevant products and then only
builds prompt text, via the provider or the canned fallback, from what it
read. -/
def commercial_process_message (a : CommercialAssistant) (st : Stores)
    (now : Nat) (message : String) : CommOutcome × CommercialAssistant × Stores :=
  let ip := detect_intent now message
  if ip.1 = "create_product" then
    let res := execute_action a.user_id ip.1 ip.2 st
    if res.1.success then
      (CommOutcome.action res.1, { a with products_cache := none }, res.2)
    else
      (CommOutcome.action res.1, a, res.2)
  else
    let sr := search_relevant_products a st message 5
    (CommOutcome.query sr.1, sr.2, st)

/-! ## PersonalAssistant -/

structure PersonalAssistant where
  user_id : Nat
  appointments_cache : Option (List ApptRec) := none
  tasks_cache : Option (List TaskRec) := none
deriving Repr, DecidableEq

/-- PersonalAssistant.get_context, state part: lazily fill the two caches
from the store (appointments of the next 30 days with status scheduled,
pending tasks). -/
def PersonalAssistant.fill_context (a : PersonalAssistant) (st : Stores) (now : Nat) :
    PersonalAssistant :=
  let appts :=
    match a.appointments_cache with
    | some x => x
    | none => list_appointments st a.user_id (formatDate now) (formatDate (now + 30)) "scheduled"
  let tasks :=
    match a.tasks_cache with
    | some x => x
    | none => list_tasks st a.user_id "pending"
  { a with appointments_cache := some appts, tasks_cache := some tasks }

/-- Outcome of one personal process_message turn: the action path with the
executor result, or the query path (prompt building from store reads). -/
inductive PersOutcome where
  | action : ExecResult → PersOutcome
  | query : PersOutcome
deriving Repr, DecidableEq

/-- PersonalAssistant.process_message, its state-affecting skeleton: only
create_task and create_appointment intents take the action path (executing
and, on success, invalidating both caches); every other intent, including
create_product, takes the query path, which reads the store to build the
context and prompt but never calls the executor and never writes the
store. -/
def personal_process_message (a : PersonalAssistant) (st : Stores)
    (now : Nat) (message : String) : PersOutcome × PersonalAssistant × Stores :=
  let ip := detect_intent now message
  if ip.1 = "create_task" || ip.1 = "create_appointment" then
    let res := execute_action a.user_id ip.1 ip.2 st
    if res.1.success then
      (PersOutcome.action res.1,
       { a with appointments_cache := none, tasks_cache := none }, res.2)
    else
      (PersOutcome.action res.1, a, res.2)
  else
    (PersOutcome.query, a.fill_context st now, st)

/-! ## Specification-side comparison definitions

These definitions follow the wording of the specification (not the source
text); the theorems below compare the embedded source against them. -/

/-- Offset formula of the specification for the next-weekday computation:
(target - today) mod 7, with 0 forced to 7. -/
def nextWeekdayOffsetSpec (target today : Nat) : Nat :=
  (if ((target : Int) - (today : Int)) % 7 = 0 then 7
   else ((target : Int) - (today : Int)) % 7).toNat

/-- The clarification outcome the specification prescribes: failure with
the missing fields joined into the message and no data. -/
def clarificationFailure (p : Params) : ExecResult :=
  { success := false,
    message := "Necesito más información. Por favor proporciona: " ++ joinComma p.missing,
    data := none }

/-- The usable keywords of a query: lowercased whitespace tokens with the
stop words and the words of length at most 2 dropped. -/
def queryKeywords (query : String) : List String :=
  (pySplit (pyLower query)).filter (fun w => !(stop_words.contains w) && w.length > 2)

/-- The score annotation a search call leaves on one product dict: a
positive score is written into the _relevance_score key, a zero score
leaves the dict untouched. (queryKeywords, defined below, is the usable
keyword list of the query.) -/
def annotateScore (query : String) (p : ProductDict) : ProductDict :=
  if product_score (pyLower query) (queryKeywords query) p > 0 then
    { p with relevance_score := some (product_score (pyLower query) (queryKeywords query) p) }
  else p

/-- The relevance search as the specification describes it, amended on the
fallback guard: keep the products scoring above zero, each annotated with
its score, sorted by descending score with ties in original order, cut to
limit; only when that match set is empty and the query yielded no usable
keywords are the first limit products returned unscored. -/
def searchRelevantSpec (query : String) (limit : Nat) (products : List ProductDict) :
    List ProductDict :=
  if products.isEmpty then []
  else
    let ql := pyLower query
    let kws := (pySplit ql).filter (fun w => !(stop_words.contains w) && w.length > 2)
    let annotated :=
      (products.filter (fun p => product_score ql kws p > 0)).map
        (fun p => { p with relevance_score := some (product_score ql kws p) })
    if annotated.isEmpty && kws.isEmpty then products.take limit
    else
      (sortStable (fun p q => (q.relevance_score.getD 0) ≤ (p.relevance_score.getD 0))
        annotated).take limit

/-! ## Claims -/

/-- C1: detect_intent checks the intent categories in the fixed precedence
order product-creation, then task-creation, then appointment-creation,
then query; the first category whose trigger matches and whose extractor
returns parameters wins. In particular the message tengo que ir a la
reunión con Juan mañana is classified create_task with the task checked
before the appointment patterns, never create_appointment. -/
theorem C1_intent_precedence :
    (∀ now message p,
      tryCategory (anySearch CREATE_PRODUCT_PATTERNS (pyStrip (pyLower message)))
          (extract_product_params message) = some p →
      detect_intent now message = ("create_product", p)) ∧
    (∀ now message p,
      tryCategory (anySearch CREATE_PRODUCT_PATTERNS (pyStrip (pyLower message)))
          (extract_product_params message) = none →
      tryCategory (anySearch CREATE_TASK_PATTERNS (pyStrip (pyLower message)))
          (extract_task_params now message) = some p →
      detect_intent now message = ("create_task", p)) ∧
    (∀ now,
      detect_intent now "tengo que ir a la reunión con Juan mañana" =
        ("create_task",
         { title := some "Ir a la reunión con juan",
           due_date := some (formatDate (now + 1)),
           priority := some "medium", status := some "pending" })) := by
  refine ⟨?_, ?_, fun now => rfl⟩
  · intro now message p h
    simp only [detect_intent]
    rw [h]
  · intro now message p h0 h
    simp only [detect_intent]
    rw [h0, h]

/-- Witness for C1: on the precedence message itself, the product category
yields nothing and the theorem classifies it create_task at a fixed
clock. -/
theorem C1_intent_precedence_witness :
    detect_intent 20000 "tengo que ir a la reunión con Juan mañana" =
      ("create_task",
       { title := some "Ir a la reunión con juan",
         due_date := some "2024-10-05",
         priority := some "medium", status := some "pending" }) :=
  C1_intent_precedence.2.1 20000 "tengo que ir a la reunión con Juan mañana"
    { title := some "Ir a la reunión con juan",
      due_date := some "2024-10-05",
      priority := some "medium", status := some "pending" } rfl rfl

/-- C2: a message matching the verb-name-por-amount product pattern
extracts the title-cased name, the parsed numeric literal as the price and
the default stock 1; in particular agregar laptop gaming por 1500 dollars
con 10 unidades yields name Laptop Gaming, price 1500 and stock 1, the
unit clause being ignored by this pattern. -/
theorem C2_product_extraction :
    (∀ message m,
      reSearch prodExtractA (pyLower message) = some m →
      extract_product_params message =
        some { name := some (pyTitle (pyStrip ((matchGroup (pyLower message) m 5).getD ""))),
               price := some (pyFloat ((matchGroup (pyLower message) m 6).getD "")),
               stock := some 1 }) ∧
    detect_intent 20000 "agregar laptop gaming por $1500 con 10 unidades" =
      ("create_product",
       { name := some "Laptop Gaming", price := some 1500, stock := some 1 }) := by
  refine ⟨?_, by decide⟩
  intro message m h
  simp only [extract_product_params]
  rw [h]

/-- Witness for C2: the first conjunct applied to a concrete message and
its concrete match value. -/
theorem C2_product_extraction_witness :
    extract_product_params "agrega mesa por 300" =
      some { name := some "Mesa", price := some 300, stock := some 1 } := by
  rw [C2_product_extraction.1 "agrega mesa por 300"
    ⟨0, 19, [(6, 16, 19), (5, 7, 11), (1, 0, 6), (2, 5, 6)]⟩ rfl]
  decide

/-- C3: the claim says the relative words map hoy to now, mañana to
now + 1 and pasado mañana to now + 2, matching the DATE_PATTERNS table of
the source itself — but the table is scanned in order with a substring
test and mañana is a substring of pasado mañana, so the pasado mañana
entry is unreachable and such a message resolves to now + 1. The theorem
exhibits the divergence: the table holds the pair mapping pasado mañana to
offset 2, the word is in the message, yet the extracted date is the
mañana offset now + 1, a different date than now + 2. -/
theorem C3_pasado_manana_shadowed :
    (("pasado mañana", some 2) ∈ DATE_PATTERNS) ∧
    pyContains (pyLower "tengo que pagar pasado mañana") "pasado mañana" = true ∧
    extract_date 20000 "tengo que pagar pasado mañana" = some (formatDate (20000 + 1)) ∧
    formatDate (20000 + 1) ≠ formatDate (20000 + 2) ∧
    (detect_intent 20000 "tengo que pagar pasado mañana").2.due_date =
      some "2024-10-05" := by
  refine ⟨by decide, rfl, rfl, by decide, rfl⟩

/-- C4 counterexample: a message with an extractable time but no
extractable date is classified create_appointment with start_datetime
tomorrow at 09:00:00, not tomorrow at the extracted time 15:00 as the
claim states. -/
theorem C4_time_without_date_counterexample :
    extract_time "reunión con juan a las 3 pm" = some "15:00" ∧
    extract_date 20000 "reunión con juan a las 3 pm" = none ∧
    detect_intent 20000 "reunión con juan a las 3 pm" =
      ("create_appointment",
       { title := some "Reunión con juan",
         start_datetime := some "2024-10-05 09:00:00",
         status := some "scheduled", reminder_minutes := some 15 }) ∧
    some "2024-10-05 09:00:00" ≠ some (formatDate (20000 + 1) ++ " 15:00:00") := by
  refine ⟨rfl, rfl, rfl, by decide⟩

/-- C4 amended: appointment extraction never fails and always yields a
title, a scheduled status and the 15 minute reminder; the start timestamp
combines the separately extracted date and time, the time defaulting to
09:00 when absent while a date is present — but a missing date defaults
the whole start to tomorrow at 09:00:00 regardless of any extracted
time. -/
theorem C4_appointment_defaults :
    (∀ now message, (extract_appointment_params now message).isSome) ∧
    (∀ now message p, extract_appointment_params now message = some p →
      p.title.isSome ∧ p.status = some "scheduled" ∧ p.reminder_minutes = some 15) ∧
    (∀ now message d t,
      extract_date now (pyLower message) = some d →
      extract_time (pyLower message) = some t →
      ∃ p, extract_appointment_params now message = some p ∧
        p.start_datetime = some (d ++ " " ++ t ++ ":00")) ∧
    (∀ now message d,
      extract_date now (pyLower message) = some d →
      extract_time (pyLower message) = none →
      ∃ p, extract_appointment_params now message = some p ∧
        p.start_datetime = some (d ++ " 09:00:00")) ∧
    (∀ now message,
      extract_date now (pyLower message) = none →
      ∃ p, extract_appointment_params now message = some p ∧
        p.start_datetime = some (formatDate (now + 1) ++ " 09:00:00")) := by
  refine ⟨fun now message => rfl, ?_, ?_, ?_, ?_⟩
  · intro now message p h
    simp only [extract_appointment_params] at h
    injection h with h2
    subst h2
    exact ⟨rfl, rfl, rfl⟩
  · intro now message d t hd ht
    simp only [extract_appointment_params]
    rw [hd, ht]
    exact ⟨_, rfl, rfl⟩
  · intro now message d hd ht
    simp only [extract_appointment_params]
    rw [hd, ht]
    exact ⟨_, rfl, rfl⟩
  · intro now message hd
    simp only [extract_appointment_params]
    rw [hd]
    exact ⟨_, rfl, rfl⟩

/-- Witness for C4: a message carrying both a relative date and a time
combines them into the start timestamp. -/
theorem C4_appointment_defaults_witness :
    ∃ p, extract_appointment_params 20000 "reunión con ana mañana a las 3 pm" = some p ∧
      p.start_datetime = some ("2024-10-05" ++ " " ++ "15:00" ++ ":00") :=
  C4_appointment_defaults.2.2.1 20000 "reunión con ana mañana a las 3 pm"
    "2024-10-05" "15:00" rfl rfl

/-- C5 counterexample: the dotted spelling is matched by the time pattern
but triggers no 12-hour conversion, so 3:30 p.m. parses to 03:30, not to
15:30 as the claim (conversion applies equally to the dotted spellings)
requires. -/
theorem C5_dotted_pm_counterexample :
    extract_time "3:30 p.m." = some "03:30" ∧
    (some "03:30" : Option String) ≠ some "15:30" :=
  ⟨rfl, by decide⟩

/-- C5 amended: the pattern accepts H and H:MM with the four period
spellings, but the conversion guards test the contiguous substrings pm and
am, so only the plain spellings convert (pm below 12 adds 12, am at 12
becomes 0) while the dotted spellings leave the hour unchanged; the three
claimed round trips hold, and the dotted variants parse without
conversion. -/
theorem C5_time_conversion :
    (∀ h, hour24 h (some "pm") = if h < 12 then h + 12 else h) ∧
    (∀ h, hour24 h (some "am") = if h = 12 then 0 else h) ∧
    (∀ h, hour24 h (some "p.m.") = h) ∧
    (∀ h, hour24 h (some "a.m.") = h) ∧
    extract_time "3:30 pm" = some "15:30" ∧
    extract_time "12:00 am" = some "00:00" ∧
    extract_time "9" = some "09:00" ∧
    extract_time "3:30 p.m." = some "03:30" ∧
    extract_time "12:00 a.m." = some "12:00" := by
  refine ⟨?_, ?_, ?_, ?_, rfl, rfl, rfl, rfl, rfl⟩
  · intro h
    simp [hour24, pyContains, listContains, listIsPrefix]
  · intro h
    simp [hour24, pyContains, listContains, listIsPrefix]
  · intro h
    simp [hour24, pyContains, listContains, listIsPrefix]
  · intro h
    simp [hour24, pyContains, listContains, listIsPrefix]

/-- C6: for every valid Spanish weekday name and every fixed clock, the
next-weekday date is offset by (target - weekday of today) mod 7 days with
an offset of 0 forced to 7, so the result is always strictly in the
future, between 1 and 7 days ahead, and asking for the weekday of today
itself lands exactly 7 days ahead. -/
theorem C6_next_weekday :
    ∀ now name target,
      weekdays.find? (fun w => w.1 = name) = some (name, target) →
      get_next_weekday now name =
        some (formatDate (now + nextWeekdayOffsetSpec target (pyWeekday now))) ∧
      1 ≤ nextWeekdayOffsetSpec target (pyWeekday now) ∧
      nextWeekdayOffsetSpec target (pyWeekday now) ≤ 7 ∧
      (target = pyWeekday now → nextWeekdayOffsetSpec target (pyWeekday now) = 7) := by
  intro now name target h
  have hmem : (name, target) ∈ weekdays := List.mem_of_find?_eq_some h
  have htlt : target < 7 := by
    simp only [weekdays, List.mem_cons, List.mem_singleton, Prod.mk.injEq,
      List.not_mem_nil, or_false] at hmem
    rcases hmem with ⟨_, h2⟩ | ⟨_, h2⟩ | ⟨_, h2⟩ | ⟨_, h2⟩ | ⟨_, h2⟩ | ⟨_, h2⟩ | ⟨_, h2⟩ <;>
      omega
  have hw : pyWeekday now < 7 := Nat.mod_lt _ (by omega)
  have key :
      (if ((target : Int) - (pyWeekday now : Int)) ≤ 0 then
          ((target : Int) - (pyWeekday now : Int)) + 7
        else ((target : Int) - (pyWeekday now : Int))).toNat =
        nextWeekdayOffsetSpec target (pyWeekday now) ∧
      1 ≤ nextWeekdayOffsetSpec target (pyWeekday now) ∧
      nextWeekdayOffsetSpec target (pyWeekday now) ≤ 7 ∧
      (target = pyWeekday now → nextWeekdayOffsetSpec target (pyWeekday now) = 7) := by
    unfold nextWeekdayOffsetSpec
    split_ifs <;> omega
  refine ⟨?_, key.2.1, key.2.2.1, key.2.2.2⟩
  simp only [get_next_weekday]
  rw [h]
  exact congrArg (fun o => some (formatDate (now + o))) key.1

/-- Witness for C6: asking for viernes on a Friday clock value. -/
theorem C6_next_weekday_witness :
    get_next_weekday 20000 "viernes" =
      some (formatDate (20000 + nextWeekdayOffsetSpec 4 (pyWeekday 20000))) ∧
    1 ≤ nextWeekdayOffsetSpec 4 (pyWeekday 20000) ∧
    nextWeekdayOffsetSpec 4 (pyWeekday 20000) ≤ 7 ∧
    (4 = pyWeekday 20000 → nextWeekdayOffsetSpec 4 (pyWeekday 20000) = 7) :=
  C6_next_weekday 20000 "viernes" 4 rfl

/-- A parameter bag with the clarification flag set and the appointment
keys present, for exercising the appointment executor arm. -/
def c7Params : Params :=
  { needs_clarification := true, missing := ["x"],
    title := some "Demo", start_datetime := some "2025-01-01 09:00:00" }

/-- C7 counterexample: the appointment arm of the executor never checks
needs_clarification, so a bag with the flag set and the appointment keys
present is created anyway: success is true and the store grew, against the
claimed success=false with no store call for every intent kind. -/
theorem C7_appointment_skips_clarification_counterexample :
    c7Params.needs_clarification = true ∧
    (execute_action 1 "create_appointment" c7Params Stores.empty).1.success = true ∧
    (execute_action 1 "create_appointment" c7Params Stores.empty).2 ≠ Stores.empty := by
  refine ⟨rfl, rfl, by decide⟩

/-- C7 amended: for the product and task intents a bag with
needs_clarification set yields success=false with the missing fields
joined into the message and the store untouched; the appointment arm
performs no such check (its extractor never sets the flag). -/
theorem C7_clarification_blocks_creation :
    ∀ uid p st, p.needs_clarification = true →
      execute_action uid "create_product" p st = (clarificationFailure p, st) ∧
      execute_action uid "create_task" p st = (clarificationFailure p, st) := by
  intro uid p st h
  constructor
  · show executor_create_product uid p st = _
    simp [executor_create_product, clarificationFailure, h]
  · show executor_create_task uid p st = _
    simp [executor_create_task, clarificationFailure, h]

/-- Witness for C7: a concrete clarification bag against the empty
store. -/
theorem C7_clarification_blocks_creation_witness :
    execute_action 3 "create_product"
        { needs_clarification := true, missing := ["name", "price"] } Stores.empty =
      (clarificationFailure { needs_clarification := true, missing := ["name", "price"] },
       Stores.empty) ∧
    execute_action 3 "create_task"
        { needs_clarification := true, missing := ["name", "price"] } Stores.empty =
      (clarificationFailure { needs_clarification := true, missing := ["name", "price"] },
       Stores.empty) :=
  C7_clarification_blocks_creation 3
    { needs_clarification := true, missing := ["name", "price"] } Stores.empty rfl

/-- C8: each assistant variant acts only on creation intents of its own
domain and treats the rest as queries: the personal assistant routes a
create_product message to the query path, leaving the stores untouched and
never invoking the executor, and symmetrically the commercial assistant
routes create_task and create_appointment messages to its query path,
executing only create_product; the personal assistant executes its own two
creation intents. -/
theorem C8_domain_dispatch :
    (∀ now a st message p,
      detect_intent now message = ("create_product", p) →
      personal_process_message a st now message =
        (PersOutcome.query, a.fill_context st now, st)) ∧
    (∀ now a st message p,
      (detect_intent now message = ("create_task", p) ∨
       detect_intent now message = ("create_appointment", p)) →
      commercial_process_message a st now message =
        (CommOutcome.query (search_relevant_products a st message 5).1,
         (search_relevant_products a st message 5).2, st)) ∧
    (∀ now a st message p,
      detect_intent now message = ("create_product", p) →
      ∃ a2, commercial_process_message a st now message =
        (CommOutcome.action (execute_action a.user_id "create_product" p st).1, a2,
         (execute_action a.user_id "create_product" p st).2)) ∧
    (∀ now a st message p intent,
      detect_intent now message = (intent, p) →
      (intent = "create_task" ∨ intent = "create_appointment") →
      ∃ a2, personal_process_message a st now message =
        (PersOutcome.action (execute_action a.user_id intent p st).1, a2,
         (execute_action a.user_id intent p st).2)) := by
  refine ⟨?_, ?_, ?_, ?_⟩
  · intro now a st message p h
    simp only [personal_process_message]
    rw [h]
    simp
  · intro now a st message p h
    rcases h with h | h <;>
      (simp only [commercial_process_message]; rw [h]; simp)
  · intro now a st message p h
    refine ⟨if (execute_action a.user_id "create_product" p st).1.success then
        { a with products_cache := none } else a, ?_⟩
    simp only [commercial_process_message]
    rw [h]
    by_cases hc : (execute_action a.user_id "create_product" p st).1.success <;>
      simp [hc]
  · intro now a st message p intent h hint
    refine ⟨if (execute_action a.user_id intent p st).1.success then
        { a with appointments_cache := none, tasks_cache := none } else a, ?_⟩
    simp only [personal_process_message]
    rw [h]
    have hcond : (intent = "create_task" || intent = "create_appointment") = true := by
      rcases hint with rfl | rfl <;> simp
    simp only [hcond]
    by_cases hc : (execute_action a.user_id intent p st).1.success <;>
      simp [hc]

/-- Witness for C8: a product-creation message through the personal
assistant takes the query path with the stores untouched, and a
task-creation message through the commercial assistant takes its query
path; both instantiated against the empty store at a fixed clock. -/
theorem C8_domain_dispatch_witness :
    personal_process_message { user_id := 1 } Stores.empty 20000 "crear producto" =
      (PersOutcome.query,
       PersonalAssistant.fill_context { user_id := 1 } Stores.empty 20000,
       Stores.empty) ∧
    commercial_process_message { user_id := 1 } Stores.empty 20000 "tengo que comprar pan" =
      (CommOutcome.query
        (search_relevant_products { user_id := 1 } Stores.empty "tengo que comprar pan" 5).1,
       (search_relevant_products { user_id := 1 } Stores.empty "tengo que comprar pan" 5).2,
       Stores.empty) :=
  ⟨C8_domain_dispatch.1 20000 { user_id := 1 } Stores.empty "crear producto"
      { needs_clarification := true, missing := ["name", "price"] } rfl,
   C8_domain_dispatch.2.1 20000 { user_id := 1 } Stores.empty "tengo que comprar pan"
      { title := some "Comprar pan", priority := some "medium", status := some "pending" }
      (Or.inl rfl)⟩

/-- Sample catalog rows for the search claims. -/
def laptopHP : ProductDict :=
  { id := 1, user_id := 1, name := "Laptop HP", category := some "Computadoras",
    price := 800, stock := 3 }

def mouseProd : ProductDict :=
  { id := 2, user_id := 1, name := "Mouse", category := some "Accesorios",
    price := 20, stock := 5 }

def elGato : ProductDict :=
  { id := 3, user_id := 1, name := "el gato", price := 10, stock := 1 }

/-- C9 counterexample: the query el yields zero usable keywords, yet the
verbatim bonus scores one product 20, so the search returns just that
scored product instead of up to limit products unscored as the claim
states for every zero-keyword query. -/
theorem C9_zero_keyword_counterexample :
    queryKeywords "el" = [] ∧
    (search_relevant_products { user_id := 1, products_cache := some [elGato, mouseProd] }
        Stores.empty "el" 5).1 =
      [{ elGato with relevance_score := some 20 }] ∧
    (search_relevant_products { user_id := 1, products_cache := some [elGato, mouseProd] }
        Stores.empty "el" 5).1 ≠ [elGato, mouseProd] := by
  refine ⟨rfl, by decide, by decide⟩

/-- Bridging lemma: the scored-pair pipeline of the source (pair each
product with its score, filter the positive pairs, annotate from the pair)
equals the direct filter-and-annotate pipeline of the specification. -/
theorem scored_filter_annotate (ql : String) (kws : List String) (ps : List ProductDict) :
    ((ps.map (fun p => (product_score ql kws p, p))).filter (fun sp => sp.1 > 0)).map
        (fun sp => { sp.2 with relevance_score := some sp.1 }) =
      (ps.filter (fun p => product_score ql kws p > 0)).map
        (fun p => { p with relevance_score := some (product_score ql kws p) }) := by
  induction ps with
  | nil => rfl
  | cons q qs ih =>
    by_cases h : product_score ql kws q > 0 <;>
      simp [h, ih]

/-- Bridging lemma: annotating through the scored pairs equals the
pointwise annotation map. -/
theorem scored_map_annotate (query : String) (ps : List ProductDict) :
    (ps.map (fun p =>
        (product_score (pyLower query) (queryKeywords query) p, p))).map
      (fun sp => if sp.1 > 0 then { sp.2 with relevance_score := some sp.1 } else sp.2) =
      ps.map (annotateScore query) := by
  induction ps with
  | nil => rfl
  | cons q qs ih =>
    simp only [List.map_cons, ih]
    rfl

/-- Boolean bridge between the two spellings of emptiness used by the
source and the specification. -/
theorem decide_length_eq_zero_isEmpty (l : List α) :
    decide (l.length = 0) = l.isEmpty := by
  cases l <;> rfl

/-- C9 amended: the search keeps the products scoring above zero under the
per-keyword 10-5-3 rule with the 20 verbatim and 15 SKU bonuses, sorts
them stably by descending score and truncates to limit; the unscored
fallback of up to limit products applies only when no product matched and
the query produced zero usable keywords. On the two-product example the
Laptop ranks first with score 30 while Mouse scores 0 and is excluded. -/
theorem C9_search_scoring :
    (∀ a st query limit,
      (search_relevant_products a st query limit).1 =
        searchRelevantSpec query limit ((CommercialAssistant.get_context a st).1.products)) ∧
    (search_relevant_products { user_id := 1, products_cache := some [laptopHP, mouseProd] }
        Stores.empty "laptop" 5).1 =
      [{ laptopHP with relevance_score := some 30 }] ∧
    product_score (pyLower "laptop") (queryKeywords "laptop") laptopHP = 30 ∧
    product_score (pyLower "laptop") (queryKeywords "laptop") mouseProd = 0 ∧
    30 > 0 := by
  refine ⟨?_, by decide, by decide, by decide, by decide⟩
  intro a st query limit
  simp only [search_relevant_products, searchRelevantSpec]
  rw [scored_filter_annotate]
  rw [show ((pySplit (pyLower query)).filter
      (fun w => !(stop_words.contains w) && w.length > 2)) = queryKeywords query from rfl]
  rw [decide_length_eq_zero_isEmpty]
  split_ifs <;> rfl

/-- The cache slot of the assistant returned by get_context holds exactly
the product list the context exposes. -/
theorem get_context_cache (a : CommercialAssistant) (st : Stores) :
    (a.get_context st).2.products_cache = some ((a.get_context st).1.products) := by
  unfold CommercialAssistant.get_context
  cases a.products_cache <;> rfl

/-- C10: the search is not read-only on the assistant state — after a call
the cache holds the same products in the same order, each matching product
(score above zero) now carrying its score in the _relevance_score key and
every non-matching product untouched; all other fields of every product
are unchanged and the length of the cache is preserved. -/
theorem C10_search_annotates_cache :
    (∀ a st query limit,
      ((search_relevant_products a st query limit).2).products_cache =
        some (((CommercialAssistant.get_context a st).1.products).map (annotateScore query))) ∧
    (∀ query p,
      (annotateScore query p).id = p.id ∧
      (annotateScore query p).name = p.name ∧
      (annotateScore query p).description = p.description ∧
      (annotateScore query p).price = p.price ∧
      (annotateScore query p).sku = p.sku ∧
      (annotateScore query p).category = p.category ∧
      (annotateScore query p).stock = p.stock) ∧
    (∀ query (ps : List ProductDict), (ps.map (annotateScore query)).length = ps.length) ∧
    (∀ query p, product_score (pyLower query) (queryKeywords query) p > 0 →
      (annotateScore query p).relevance_score =
        some (product_score (pyLower query) (queryKeywords query) p)) ∧
    (∀ query p, product_score (pyLower query) (queryKeywords query) p = 0 →
      annotateScore query p = p) := by
  refine ⟨?_, ?_, ?_, ?_, ?_⟩
  · intro a st query limit
    simp only [search_relevant_products]
    rw [show ((pySplit (pyLower query)).filter
        (fun w => !(stop_words.contains w) && w.length > 2)) = queryKeywords query from rfl]
    rw [scored_map_annotate]
    split_ifs with hemp _
    · rw [get_context_cache]
      have h0 : ((CommercialAssistant.get_context a st).1.products) = [] := by
        simpa [List.isEmpty_iff] using hemp
      rw [h0]
      rfl
    · rfl
    · rfl
  · intro query p
    unfold annotateScore
    split_ifs <;> exact ⟨rfl, rfl, rfl, rfl, rfl, rfl, rfl⟩
  · intro query ps
    exact List.length_map ps (annotateScore query)
  · intro query p h
    unfold annotateScore
    rw [if_pos h]
  · intro query p h
    unfold annotateScore
    rw [if_neg (by omega)]

/-- Witness for C10: on the Laptop and Mouse catalog with the query
laptop, the matching product gets its score written and the non-matching
product is untouched. -/
theorem C10_search_annotates_cache_witness :
    (annotateScore "laptop" laptopHP).relevance_score =
      some (product_score (pyLower "laptop") (queryKeywords "laptop") laptopHP) ∧
    annotateScore "laptop" mouseProd = mouseProd :=
  ⟨C10_search_annotates_cache.2.2.2.1 "laptop" laptopHP (by decide),
   C10_search_annotates_cache.2.2.2.2 "laptop" mouseProd (by decide)⟩

end SimpleIA
